import Mathlib

/-!
Shallow embedding of the `tokio-serial` asynchronous serial-port bridge
(`src/lib.rs`) together with the collaborator contracts its specification
describes.  The public facade `SerialStream` and everything it forwards to
is translated from `src/lib.rs`; the per-platform reactor adapter
(`unix.rs` / `windows.rs`) and the optional frame codec (`frame.rs`) are
declared but not present in the repository snapshot, so those parts are
modelled from the specification and marked as such in their doc comments.
-/

set_option autoImplicit false

namespace TokioSerial

/-- Subset of `std::io::ErrorKind` values that the code and spec mention. -/
inductive IOErrorKind where
  | wouldBlock
  | other
  | unsupported
  | brokenPipe
  deriving DecidableEq, Repr

/-- The `mio_serial` / `serialport` error kinds re-exported by `lib.rs`
(`ErrorKind`): `NoDevice`, `InvalidInput`, `Unknown`, `Io(io::ErrorKind)`. -/
inductive ErrorKind where
  | noDevice
  | invalidInput
  | unknown
  | io (k : IOErrorKind)
  deriving DecidableEq, Repr

/-- The `mio_serial::Error` type: a kind plus a description string, as built by
`crate::Error::new(kind, description)`. -/
structure SerialError where
  kind : ErrorKind
  description : String
  deriving DecidableEq, Repr

/-- `DataBits` configuration enumeration. -/
inductive DataBits where
  | five
  | six
  | seven
  | eight
  deriving DecidableEq, Repr

/-- `Parity` configuration enumeration. -/
inductive Parity where
  | none
  | odd
  | even
  deriving DecidableEq, Repr

/-- `StopBits` configuration enumeration. -/
inductive StopBits where
  | one
  | two
  deriving DecidableEq, Repr

/-- `FlowControl` configuration enumeration. -/
inductive FlowControl where
  | none
  | software
  | hardware
  deriving DecidableEq, Repr

/-- Serial-port configuration snapshot: the fields enumerated by the spec's
external-interface section (baud rate, data bits, parity, stop bits, flow
control).  Also serves as the `SerialPortBuilder` argument of `open`. -/
structure Config where
  baud : Nat
  data_bits : DataBits
  parity : Parity
  stop_bits : StopBits
  flow : FlowControl
  deriving DecidableEq, Repr

/-- Modelled from the spec: `NativePort` is the external collaborator owning
the OS handle — a configuration snapshot, the bytes currently pending for
read, the OS write-buffer space currently available, and an optional injected
OS fault (the spec says OS errors are returned verbatim).  Its own source is
not part of this repository (`mio_serial` dependency). -/
structure NativePort where
  config : Config
  pending : List Nat
  write_space : Nat
  fault : Option IOErrorKind
  deriving DecidableEq, Repr

/-- Modelled from the spec: the single syscall attempt of the native port's
non-blocking read.  When a fault is injected the OS error is returned
verbatim; when no data is pending the attempt fails with a WouldBlock-kinded
error; otherwise it returns `min bufLen pending.length` bytes with no retry
or buffering.  (§4.1: "try_read/try_write performing exactly one syscall
attempt, returning a WouldBlock-flavored error when the OS reports no
data/no buffer space, with no internal retry or buffering".) -/
def NativePort.read (p : NativePort) (bufLen : Nat) :
    Except SerialError (List Nat) × NativePort :=
  match p.fault with
  | some k => (.error ⟨.io k, "os error"⟩, p)
  | none =>
    if p.pending.isEmpty then
      (.error ⟨.io .wouldBlock, "would block"⟩, p)
    else
      let n := min bufLen p.pending.length
      (.ok (p.pending.take n), { p with pending := p.pending.drop n })

/-- Modelled from the spec: the single syscall attempt of the native port's
non-blocking write.  A partial write reports the actual byte count; a full
buffer yields a WouldBlock-kinded error. -/
def NativePort.write (p : NativePort) (buf : List Nat) :
    Except SerialError Nat × NativePort :=
  match p.fault with
  | some k => (.error ⟨.io k, "os error"⟩, p)
  | none =>
    if buf.isEmpty then (.ok 0, p)
    else if p.write_space = 0 then
      (.error ⟨.io .wouldBlock, "would block"⟩, p)
    else
      let n := min buf.length p.write_space
      (.ok n, { p with write_space := p.write_space - n })

/-- Modelled from the spec: the reactor adapter (`NativeSerialStream`, whose
per-platform source `unix.rs`/`windows.rs` is not in the repository
snapshot).  It wraps one `NativePort` and keeps a single-slot wake-interest
cell per direction — §9: "a single-slot wake-interest cell per direction,
overwritten (not queued) on each new poll".  A waker is identified by a
natural number. -/
structure Adapter where
  port : NativePort
  read_waker : Option Nat
  write_waker : Option Nat
  deriving DecidableEq, Repr

/-- Result of a poll-based operation: either suspended or ready with a value. -/
inductive Poll (α : Type) where
  | pending
  | ready (a : α)
  deriving DecidableEq, Repr

/-- Modelled from the spec (§4.2): adapter `poll_read` — "invoke try_read
once; on success, copy into buffer, resolve ready; on WouldBlock, record
context's wake interest for the read direction, return pending; on any other
error, resolve ready with that error". -/
def Adapter.poll_read (a : Adapter) (waker : Nat) (bufLen : Nat) :
    Poll (Except SerialError (List Nat)) × Adapter :=
  match a.port.read bufLen with
  | (.ok bytes, p) => (.ready (.ok bytes), { a with port := p })
  | (.error e, p) =>
    if e.kind = .io .wouldBlock then
      (.pending, { a with port := p, read_waker := some waker })
    else
      (.ready (.error e), { a with port := p })

/-- Modelled from the spec (§4.2): adapter `poll_write`, symmetric to
`poll_read` for the write direction. -/
def Adapter.poll_write (a : Adapter) (waker : Nat) (buf : List Nat) :
    Poll (Except SerialError Nat) × Adapter :=
  match a.port.write buf with
  | (.ok n, p) => (.ready (.ok n), { a with port := p })
  | (.error e, p) =>
    if e.kind = .io .wouldBlock then
      (.pending, { a with port := p, write_waker := some waker })
    else
      (.ready (.error e), { a with port := p })

/-- Modelled from the spec: the adapter's manual single-attempt read used by
the facade's `try_read` / `Read::read` (`self.inner.read(buf)`): a direct
forward of the native attempt, never suspending. -/
def Adapter.read (a : Adapter) (bufLen : Nat) :
    Except SerialError (List Nat) × Adapter :=
  match a.port.read bufLen with
  | (r, p) => (r, { a with port := p })

/-- Modelled from the spec: the adapter's manual single-attempt write used by
the facade's `try_write` / `Write::write` (`self.inner.write(buf)`). -/
def Adapter.write (a : Adapter) (buf : List Nat) :
    Except SerialError Nat × Adapter :=
  match a.port.write buf with
  | (r, p) => (r, { a with port := p })

/-- The waker that a readiness event in the read direction would schedule:
exactly the content of the single-slot cell. -/
def Adapter.scheduled_read_waker (a : Adapter) : Option Nat :=
  a.read_waker

/-- The waker that a readiness event in the write direction would schedule. -/
def Adapter.scheduled_write_waker (a : Adapter) : Option Nat :=
  a.write_waker

/-- `SerialStream` from `src/lib.rs` lines 45-48: the public facade owning
one reactor adapter (`inner: NativeSerialStream`). -/
structure SerialStream where
  inner : Adapter
  deriving DecidableEq, Repr

/-- `SerialStream::try_read` (`src/lib.rs` lines 109-111): a verbatim forward
to `self.inner.read(buf)`. -/
def SerialStream.try_read (s : SerialStream) (bufLen : Nat) :
    Except SerialError (List Nat) × SerialStream :=
  match s.inner.read bufLen with
  | (r, a) => (r, { inner := a })

/-- `SerialStream::try_write` (`src/lib.rs` lines 128-130): a verbatim
forward to `self.inner.write(buf)`. -/
def SerialStream.try_write (s : SerialStream) (buf : List Nat) :
    Except SerialError Nat × SerialStream :=
  match s.inner.write buf with
  | (r, a) => (r, { inner := a })

/-- `AsyncRead::poll_read` for `SerialStream` (`src/lib.rs` lines 162-168):
forwards to the adapter's `poll_read`. -/
def SerialStream.poll_read (s : SerialStream) (waker : Nat) (bufLen : Nat) :
    Poll (Except SerialError (List Nat)) × SerialStream :=
  match s.inner.poll_read waker bufLen with
  | (r, a) => (r, { inner := a })

/-- `AsyncWrite::poll_write` for `SerialStream` (`src/lib.rs` lines 189-195):
forwards to the adapter's `poll_write`. -/
def SerialStream.poll_write (s : SerialStream) (waker : Nat) (buf : List Nat) :
    Poll (Except SerialError Nat) × SerialStream :=
  match s.inner.poll_write waker buf with
  | (r, a) => (r, { inner := a })

/-- `Read::read` for `SerialStream` (`src/lib.rs` lines 336-340): forwards to
`self.inner.read(buf)`. -/
def SerialStream.blocking_read (s : SerialStream) (bufLen : Nat) :
    Except SerialError (List Nat) × SerialStream :=
  match s.inner.read bufLen with
  | (r, a) => (r, { inner := a })

/-- `Write::write` for `SerialStream` (`src/lib.rs` lines 342-345): forwards
to `self.inner.write(buf)`. -/
def SerialStream.blocking_write (s : SerialStream) (buf : List Nat) :
    Except SerialError Nat × SerialStream :=
  match s.inner.write buf with
  | (r, a) => (r, { inner := a })

/-- `SerialPort::timeout` for `SerialStream` (`src/lib.rs` lines 237-240):
always `Duration::from_secs(0)`.  Durations are modelled in nanoseconds. -/
def SerialStream.timeout (_ : SerialStream) : Nat :=
  0

/-- `SerialPort::set_timeout` for `SerialStream` (`src/lib.rs` lines
267-270): ignores the duration and returns `Ok(())`, touching nothing. -/
def SerialStream.set_timeout (s : SerialStream) (_ : Nat) :
    Except SerialError Unit × SerialStream :=
  (.ok (), s)

/-- `SerialPort::try_clone` for `SerialStream` (`src/lib.rs` lines 317-323):
unconditionally
`Err(Error::new(ErrorKind::Io(std::io::ErrorKind::Other), "Cannot clone Tokio handles"))`. -/
def SerialStream.try_clone (_ : SerialStream) : Except SerialError SerialStream :=
  .error ⟨.io .other, "Cannot clone Tokio handles"⟩

/-- Modelled from the spec: native-port configuration setters update the
configuration snapshot; the OS rejects an invalid (zero) baud rate with
`InvalidInput` (§6 requires `baud_rate: positive integer`, §7 lists
"InvalidInput (malformed configuration, e.g. zero baud rate)").  The
enumeration-typed settings are always valid. -/
def NativePort.set_baud_rate (p : NativePort) (v : Nat) :
    Except SerialError Unit × NativePort :=
  if v = 0 then (.error ⟨.invalidInput, "invalid baud rate"⟩, p)
  else (.ok (), { p with config := { p.config with baud := v } })

/-- Modelled from the spec: native-port parity setter (always-valid enum). -/
def NativePort.set_parity (p : NativePort) (v : Parity) :
    Except SerialError Unit × NativePort :=
  (.ok (), { p with config := { p.config with parity := v } })

/-- Modelled from the spec: native-port stop-bits setter (always-valid enum). -/
def NativePort.set_stop_bits (p : NativePort) (v : StopBits) :
    Except SerialError Unit × NativePort :=
  (.ok (), { p with config := { p.config with stop_bits := v } })

/-- Modelled from the spec: native-port flow-control setter (always-valid
enum). -/
def NativePort.set_flow_control (p : NativePort) (v : FlowControl) :
    Except SerialError Unit × NativePort :=
  (.ok (), { p with config := { p.config with flow := v } })

/-- `SerialPort::baud_rate` for `SerialStream` (`src/lib.rs` lines 213-215):
forwards to the native port's getter, which reads the snapshot. -/
def SerialStream.baud_rate (s : SerialStream) : Except SerialError Nat :=
  .ok s.inner.port.config.baud

/-- `SerialPort::parity` for `SerialStream` (`src/lib.rs` lines 228-230). -/
def SerialStream.parity (s : SerialStream) : Except SerialError Parity :=
  .ok s.inner.port.config.parity

/-- `SerialPort::stop_bits` for `SerialStream` (`src/lib.rs` lines 233-235). -/
def SerialStream.stop_bits (s : SerialStream) : Except SerialError StopBits :=
  .ok s.inner.port.config.stop_bits

/-- `SerialPort::flow_control` for `SerialStream` (`src/lib.rs` lines
223-225). -/
def SerialStream.flow_control (s : SerialStream) : Except SerialError FlowControl :=
  .ok s.inner.port.config.flow

/-- `SerialPort::set_baud_rate` for `SerialStream` (`src/lib.rs` lines
243-245): forwards to the native port. -/
def SerialStream.set_baud_rate (s : SerialStream) (v : Nat) :
    Except SerialError Unit × SerialStream :=
  match s.inner.port.set_baud_rate v with
  | (r, p) => (r, { inner := { s.inner with port := p } })

/-- `SerialPort::set_parity` for `SerialStream` (`src/lib.rs` lines 258-260). -/
def SerialStream.set_parity (s : SerialStream) (v : Parity) :
    Except SerialError Unit × SerialStream :=
  match s.inner.port.set_parity v with
  | (r, p) => (r, { inner := { s.inner with port := p } })

/-- `SerialPort::set_stop_bits` for `SerialStream` (`src/lib.rs` lines
263-265). -/
def SerialStream.set_stop_bits (s : SerialStream) (v : StopBits) :
    Except SerialError Unit × SerialStream :=
  match s.inner.port.set_stop_bits v with
  | (r, p) => (r, { inner := { s.inner with port := p } })

/-- `SerialPort::set_flow_control` for `SerialStream` (`src/lib.rs` lines
253-255). -/
def SerialStream.set_flow_control (s : SerialStream) (v : FlowControl) :
    Except SerialError Unit × SerialStream :=
  match s.inner.port.set_flow_control v with
  | (r, p) => (r, { inner := { s.inner with port := p } })

/-- A world tracking how many OS handles are currently live, used to state
the no-leak construction property. -/
structure World where
  live : Nat
  deriving DecidableEq, Repr

/-- Outcome oracle for one fallible construction step of the external
collaborators. -/
inductive StepOutcome where
  | success
  | failure (e : SerialError)
  deriving DecidableEq, Repr

/-- `SerialStream::open` (`src/lib.rs` lines 52-57):
`let port = mio_serial::SerialStream::open(builder)?;` then
`let inner = NativeSerialStream::new(port)?;`.  The two collaborator calls
are given as outcome oracles.  Modelled from the spec for the parts outside
this repository: a successful `mio_serial` open acquires one OS handle, and
the early return of the second `?` drops `port`, closing that handle before
the error propagates (§4.3: "on any failure after NativePort construction,
close the handle before propagating the error (no leaked handles)"). -/
def SerialStream.openStream (builder : Config) (mioOpen adapterNew : StepOutcome)
    (w : World) : Except SerialError SerialStream × World :=
  match mioOpen with
  | .failure e => (.error e, w)
  | .success =>
    let w1 : World := ⟨w.live + 1⟩
    let port : NativePort := ⟨builder, [], 0, none⟩
    match adapterNew with
    | .failure e => (.error e, ⟨w1.live - 1⟩)
    | .success => (.ok ⟨⟨port, none, none⟩⟩, w1)

/-- `SerialStream::pair` (`src/lib.rs` lines 69-75):
`let (primary, secondary) = NativeSerialStream::pair()?;` followed by two
infallible wrappings.  Modelled from the spec for the collaborator call: the
pseudo-terminal pair is one atomic allocation of two handles (§4.3: "open a
connected two-ended pseudo-terminal in one atomic allocation"); when it
fails nothing was acquired. -/
def SerialStream.pair (cfg : Config) (nativePair : StepOutcome) (w : World) :
    Except SerialError (SerialStream × SerialStream) × World :=
  match nativePair with
  | .failure e => (.error e, w)
  | .success =>
    let primary : SerialStream := ⟨⟨⟨cfg, [], 0, none⟩, none, none⟩⟩
    let secondary : SerialStream := ⟨⟨⟨cfg, [], 0, none⟩, none, none⟩⟩
    (.ok (primary, secondary), ⟨w.live + 2⟩)

/-- `SerialPortBuilderExt::open_async` for `SerialPortBuilder`
(`src/lib.rs` lines 376-380): `SerialStream::open(&self)`. -/
def open_async (builder : Config) (mioOpen adapterNew : StepOutcome)
    (w : World) : Except SerialError SerialStream × World :=
  SerialStream.openStream builder mioOpen adapterNew w

/-- Modelled from the spec: the frame delimiter byte of the codec (`frame.rs`
is declared by `mod frame` in `src/lib.rs` line 24 but its source is not in
the repository snapshot; §4.4 describes a delimiter-terminated frame codec). -/
def DELIM : Nat :=
  10

/-- Split a byte list at the first occurrence of the frame delimiter,
returning the bytes before it and the bytes after it; `Option.none` when no
delimiter occurs. -/
def split_at_delimiter : List Nat → Option (List Nat × List Nat)
  | [] => Option.none
  | b :: rest =>
    if b = DELIM then some ([], rest)
    else
      match split_at_delimiter rest with
      | some (pre, post) => some (b :: pre, post)
      | Option.none => Option.none

/-- Result of one `decode` call: zero or one complete frame, or the
`FrameTooLarge` failure. -/
inductive DecodeOut where
  | frame (f : List Nat)
  | needMore
  | frameTooLarge
  deriving DecidableEq, Repr

/-- Modelled from the spec (§4.4, §2.5): decoder state is "accumulated-but-
not-yet-complete prefix bytes, bounded by a maximum size", plus the
discarding flag of the chosen recovery policy (the spec leaves the policy
open; this model picks resynchronise-at-next-delimiter and the theorems show
it holds consistently). -/
structure Decoder where
  max_length : Nat
  buffer : List Nat
  discarding : Bool
  deriving DecidableEq, Repr

/-- Modelled from the spec: the core scan of the accumulated bytes — a frame
ends at the delimiter; "exceeding the bound before a frame terminator is
found fails with FrameTooLarge" (§4.4), after which the buffered bytes are
dropped and the decoder enters discarding mode. -/
def decodeCore (maxLen : Nat) (buf : List Nat) :
    DecodeOut × List Nat × Bool :=
  match split_at_delimiter buf with
  | some (pre, post) => (.frame pre, post, false)
  | Option.none =>
    if maxLen < buf.length then (.frameTooLarge, [], true)
    else (.needMore, buf, false)

/-- Modelled from the spec: `decode(new_bytes) → zero-or-one complete Frame
plus retained leftover bytes for the next call` (§4.4).  While discarding
(after `FrameTooLarge`), input is dropped up to and including the next
delimiter; decoding then resumes on the remainder. -/
def Decoder.decode (d : Decoder) (input : List Nat) : DecodeOut × Decoder :=
  if d.discarding then
    match split_at_delimiter (d.buffer ++ input) with
    | some (_, post) =>
      match decodeCore d.max_length post with
      | (r, buf, disc) => (r, ⟨d.max_length, buf, disc⟩)
    | Option.none => (.needMore, ⟨d.max_length, [], true⟩)
  else
    match decodeCore d.max_length (d.buffer ++ input) with
    | (r, buf, disc) => (r, ⟨d.max_length, buf, disc⟩)

/-- Modelled from the spec: `encode(Frame) → bytes ready for the write path,
with the chosen delimiter applied` (§4.4). -/
def Frame.encode (f : List Nat) : List Nat :=
  f ++ [DELIM]

/-- Encode a sequence of frames back to a byte sequence. -/
def encodeAll : List (List Nat) → List Nat
  | [] => []
  | f :: fs => Frame.encode f ++ encodeAll fs

/-- Repeatedly call `decode` with no new input, collecting the frames it
produces, until it stops yielding frames (fuel-bounded). -/
def drainFrames : Nat → Decoder → List (List Nat)
  | 0, _ => []
  | fuel + 1, d =>
    match d.decode [] with
    | (.frame f, d2) => f :: drainFrames fuel d2
    | _ => []

/-- All frames a fresh decoder of the given maximum produces from one byte
sequence (feeding the bytes once, then draining). -/
def decodeAllFrames (maxLen : Nat) (bytes : List Nat) : List (List Nat) :=
  drainFrames (bytes.length + 1) ⟨maxLen, bytes, false⟩

/-- Whether an `Except` value is a success. -/
def exceptIsOk {ε α : Type} : Except ε α → Bool
  | .ok _ => true
  | .error _ => false

/-- Whether a poll result is ready with an error whose kind is
`Io(WouldBlock)`. -/
def isReadyWouldBlock {α : Type} : Poll (Except SerialError α) → Bool
  | .ready (.error e) => if e.kind = ErrorKind.io .wouldBlock then true else false
  | _ => false

/-- A concrete configuration for witnesses. -/
def sampleConfig : Config :=
  ⟨9600, .eight, Parity.none, .one, FlowControl.none⟩

/-- A concrete freshly opened, empty, non-blocking stream for witnesses. -/
def sampleStream : SerialStream :=
  ⟨⟨⟨sampleConfig, [], 0, Option.none⟩, Option.none, Option.none⟩⟩

/-- C1 counterexample: on a concrete stream, `try_clone` returns an error of
kind `Io(Other)` — not `Unsupported` as the claim states. -/
theorem C1_try_clone_kind_counterexample :
    SerialStream.try_clone sampleStream =
      .error ⟨.io .other, "Cannot clone Tokio handles"⟩ ∧
    ErrorKind.io .other ≠ ErrorKind.io .unsupported :=
  ⟨rfl, by decide⟩

/-- C1 (amended): for every `SerialStream`, `try_clone` returns the fixed
error `Error::new(ErrorKind::Io(io::ErrorKind::Other), "Cannot clone Tokio handles")`
— an error of kind `Io(Other)`, not `Unsupported` — and never succeeds, so
no second live `SerialStream` or registration over the same handle is ever
produced. -/
theorem C1_try_clone_always_fails (s : SerialStream) :
    s.try_clone = .error ⟨.io .other, "Cannot clone Tokio handles"⟩ ∧
    exceptIsOk s.try_clone = false :=
  ⟨rfl, rfl⟩

/-- C3: for every stream and duration, `timeout()` returns the zero
duration, `set_timeout` returns `Ok(())` leaving the stream unchanged, and a
subsequent `timeout()` still returns zero. -/
theorem C3_timeout_inert (s : SerialStream) (d : Nat) :
    s.timeout = 0 ∧
    s.set_timeout d = (.ok (), s) ∧
    (s.set_timeout d).2.timeout = 0 :=
  ⟨rfl, rfl, rfl⟩

/-- C9: `SerialPortBuilderExt::open_async` returns exactly the same result
as `SerialStream::open` on the same builder, world and collaborator
outcomes: the two construction entry points are equivalent. -/
theorem C9_open_async_equiv (builder : Config) (mioOpen adapterNew : StepOutcome)
    (w : World) :
    open_async builder mioOpen adapterNew w =
      SerialStream.openStream builder mioOpen adapterNew w :=
  rfl

/-- C10: the blocking-trait entry points `Read::read` and `Write::write`
compute exactly the same result (value and successor state) as `try_read`
and `try_write`: all four forward to the same inner single-attempt
operation. -/
theorem C10_read_write_equiv (s : SerialStream) (bufLen : Nat) (buf : List Nat) :
    s.blocking_read bufLen = s.try_read bufLen ∧
    s.blocking_write buf = s.try_write buf :=
  ⟨rfl, rfl⟩

/-- C2: on the cooperative poll path, neither `poll_read` nor `poll_write`
ever resolves `Poll::Ready(Err(e))` with `e` of kind `Io(WouldBlock)` — a
would-block outcome of the single native attempt becomes `Poll::Pending`
(with wake interest recorded) — while `try_read`/`try_write` return the
native attempt's result, a `WouldBlock` error included, verbatim. -/
theorem C2_wouldblock_never_leaks (s : SerialStream) (w bufLen : Nat)
    (buf : List Nat) :
    isReadyWouldBlock (s.poll_read w bufLen).1 = false ∧
    isReadyWouldBlock (s.poll_write w buf).1 = false ∧
    (s.try_read bufLen).1 = (s.inner.port.read bufLen).1 ∧
    (s.try_write buf).1 = (s.inner.port.write buf).1 := by
  refine ⟨?_, ?_, ?_, ?_⟩
  · rcases h : s.inner.port.read bufLen with ⟨r, p⟩
    rcases r with e | bytes
    · by_cases hk : e.kind = ErrorKind.io .wouldBlock
      · simp [SerialStream.poll_read, Adapter.poll_read, h, hk, isReadyWouldBlock]
      · simp [SerialStream.poll_read, Adapter.poll_read, h, hk, isReadyWouldBlock]
    · simp [SerialStream.poll_read, Adapter.poll_read, h, isReadyWouldBlock]
  · rcases h : s.inner.port.write buf with ⟨r, p⟩
    rcases r with e | n
    · by_cases hk : e.kind = ErrorKind.io .wouldBlock
      · simp [SerialStream.poll_write, Adapter.poll_write, h, hk, isReadyWouldBlock]
      · simp [SerialStream.poll_write, Adapter.poll_write, h, hk, isReadyWouldBlock]
    · simp [SerialStream.poll_write, Adapter.poll_write, h, isReadyWouldBlock]
  · rcases h : s.inner.port.read bufLen with ⟨r, p⟩
    simp [SerialStream.try_read, Adapter.read, h]
  · rcases h : s.inner.port.write buf with ⟨r, p⟩
    simp [SerialStream.try_write, Adapter.write, h]

/-- A pending `poll_read` stores exactly its caller's waker in the
single-slot read cell. -/
theorem Adapter.poll_read_pending_waker (a : Adapter) (w n : Nat)
    (h : (a.poll_read w n).1 = .pending) :
    (a.poll_read w n).2.read_waker = some w := by
  rcases hx : a.port.read n with ⟨r, p⟩
  rcases r with e | bytes
  · by_cases hk : e.kind = ErrorKind.io .wouldBlock
    · simp [Adapter.poll_read, hx, hk]
    · simp [Adapter.poll_read, hx, hk] at h
  · simp [Adapter.poll_read, hx] at h

/-- A pending `poll_write` stores exactly its caller's waker in the
single-slot write cell. -/
theorem Adapter.poll_write_pending_waker (a : Adapter) (w : Nat) (buf : List Nat)
    (h : (a.poll_write w buf).1 = .pending) :
    (a.poll_write w buf).2.write_waker = some w := by
  rcases hx : a.port.write buf with ⟨r, p⟩
  rcases r with e | n
  · by_cases hk : e.kind = ErrorKind.io .wouldBlock
    · simp [Adapter.poll_write, hx, hk]
    · simp [Adapter.poll_write, hx, hk] at h
  · simp [Adapter.poll_write, hx] at h

/-- The facade's `poll_read` result is the adapter's. -/
theorem SerialStream.poll_read_fst (s : SerialStream) (w n : Nat) :
    (s.poll_read w n).1 = (s.inner.poll_read w n).1 := by
  rcases h : s.inner.poll_read w n with ⟨r, a⟩
  simp [SerialStream.poll_read, h]

/-- The facade's `poll_read` successor adapter is the adapter's. -/
theorem SerialStream.poll_read_snd (s : SerialStream) (w n : Nat) :
    (s.poll_read w n).2.inner = (s.inner.poll_read w n).2 := by
  rcases h : s.inner.poll_read w n with ⟨r, a⟩
  simp [SerialStream.poll_read, h]

/-- The facade's `poll_write` result is the adapter's. -/
theorem SerialStream.poll_write_fst (s : SerialStream) (w : Nat) (buf : List Nat) :
    (s.poll_write w buf).1 = (s.inner.poll_write w buf).1 := by
  rcases h : s.inner.poll_write w buf with ⟨r, a⟩
  simp [SerialStream.poll_write, h]

/-- The facade's `poll_write` successor adapter is the adapter's. -/
theorem SerialStream.poll_write_snd (s : SerialStream) (w : Nat) (buf : List Nat) :
    (s.poll_write w buf).2.inner = (s.inner.poll_write w buf).2 := by
  rcases h : s.inner.poll_write w buf with ⟨r, a⟩
  simp [SerialStream.poll_write, h]

/-- C4: for each direction, when a second poll is issued on the same stream
while the first poll's interest is unresolved (both return pending), the
single-slot wake cell afterwards holds exactly the second poll's waker: only
the most recent waker can be scheduled, and the first registration can never
wake its suspended caller. -/
theorem C4_last_waker_wins (s t : SerialStream) (w1 w2 n1 n2 : Nat)
    (buf1 buf2 : List Nat)
    (_hr1 : (s.poll_read w1 n1).1 = .pending)
    (hr2 : ((s.poll_read w1 n1).2.poll_read w2 n2).1 = .pending)
    (_hw1 : (t.poll_write w1 buf1).1 = .pending)
    (hw2 : ((t.poll_write w1 buf1).2.poll_write w2 buf2).1 = .pending)
    (hne : w1 ≠ w2) :
    ((s.poll_read w1 n1).2.poll_read w2 n2).2.inner.scheduled_read_waker = some w2 ∧
    ((s.poll_read w1 n1).2.poll_read w2 n2).2.inner.scheduled_read_waker ≠ some w1 ∧
    ((t.poll_write w1 buf1).2.poll_write w2 buf2).2.inner.scheduled_write_waker = some w2 ∧
    ((t.poll_write w1 buf1).2.poll_write w2 buf2).2.inner.scheduled_write_waker ≠ some w1 := by
  rw [SerialStream.poll_read_fst] at hr2
  rw [SerialStream.poll_write_fst] at hw2
  have h2 := Adapter.poll_read_pending_waker _ w2 n2 hr2
  have h4 := Adapter.poll_write_pending_waker _ w2 buf2 hw2
  have e2 : ((s.poll_read w1 n1).2.poll_read w2 n2).2.inner.scheduled_read_waker = some w2 := by
    rw [SerialStream.poll_read_snd, Adapter.scheduled_read_waker]
    exact h2
  have e4 : ((t.poll_write w1 buf1).2.poll_write w2 buf2).2.inner.scheduled_write_waker = some w2 := by
    rw [SerialStream.poll_write_snd, Adapter.scheduled_write_waker]
    exact h4
  refine ⟨e2, ?_, e4, ?_⟩
  · rw [e2]
    intro hcontra
    exact hne (Option.some.inj hcontra).symm
  · rw [e4]
    intro hcontra
    exact hne (Option.some.inj hcontra).symm

/-- C4 witness: on the concrete empty stream, after two pending polls per
direction with wakers 0 then 1, only waker 1 is scheduled. -/
theorem C4_witness :
    ((sampleStream.poll_read 0 8).2.poll_read 1 8).2.inner.scheduled_read_waker = some 1 ∧
    ((sampleStream.poll_read 0 8).2.poll_read 1 8).2.inner.scheduled_read_waker ≠ some 0 ∧
    ((sampleStream.poll_write 0 [1]).2.poll_write 1 [2]).2.inner.scheduled_write_waker = some 1 ∧
    ((sampleStream.poll_write 0 [1]).2.poll_write 1 [2]).2.inner.scheduled_write_waker ≠ some 0 :=
  C4_last_waker_wins sampleStream sampleStream 0 1 8 8 [1] [2]
    rfl rfl rfl rfl (by decide)

/-- C5: on a stream whose port has no pending data and no injected fault,
`try_read` returns `Err` of kind `Io(WouldBlock)` in a single attempt,
leaves the stream unchanged (no suspension, no retry, no state change), and
in particular never returns `Ok(0)` to signal absence of data. -/
theorem C5_try_read_empty_wouldblock (s : SerialStream) (bufLen : Nat)
    (hp : s.inner.port.pending = [])
    (hf : s.inner.port.fault = Option.none) :
    (s.try_read bufLen).1 = .error ⟨.io .wouldBlock, "would block"⟩ ∧
    (s.try_read bufLen).2 = s ∧
    exceptIsOk (s.try_read bufLen).1 = false := by
  refine ⟨?_, ?_, ?_⟩ <;>
    simp [SerialStream.try_read, Adapter.read, NativePort.read, hp, hf, exceptIsOk]

/-- C5 witness: the concrete freshly opened empty stream. -/
theorem C5_witness :
    (sampleStream.try_read 16).1 = .error ⟨.io .wouldBlock, "would block"⟩ ∧
    (sampleStream.try_read 16).2 = sampleStream ∧
    exceptIsOk (sampleStream.try_read 16).1 = false :=
  C5_try_read_empty_wouldblock sampleStream 16 rfl rfl

/-- C6: construction is all-or-nothing — `open` leaves the number of live OS
handles unchanged whenever it returns an error (the mid-construction handle
is closed before the error propagates) and adds exactly one handle on
success; `pair` likewise leaves the world unchanged on error and adds
exactly the two connected endpoints on success. -/
theorem C6_construction_all_or_nothing (builder cfg : Config)
    (mioOpen adapterNew nativePair : StepOutcome) (w : World) :
    (SerialStream.openStream builder mioOpen adapterNew w).2.live =
      (if exceptIsOk (SerialStream.openStream builder mioOpen adapterNew w).1
        then w.live + 1 else w.live) ∧
    (SerialStream.pair cfg nativePair w).2.live =
      (if exceptIsOk (SerialStream.pair cfg nativePair w).1
        then w.live + 2 else w.live) := by
  constructor
  · cases mioOpen with
    | failure e => simp [SerialStream.openStream, exceptIsOk]
    | success =>
      cases adapterNew with
      | failure e => simp [SerialStream.openStream, exceptIsOk]
      | success => simp [SerialStream.openStream, exceptIsOk]
  · cases nativePair <;> simp [SerialStream.pair, exceptIsOk]

/-- C7: for every stream and valid values, "set X then get X" round-trips
exactly for baud rate, parity, stop bits and flow control. -/
theorem C7_set_get_roundtrip (s : SerialStream) (v : Nat) (p : Parity)
    (sb : StopBits) (fc : FlowControl) (hv : 0 < v) :
    (s.set_baud_rate v).1 = .ok () ∧
    (s.set_baud_rate v).2.baud_rate = .ok v ∧
    (s.set_parity p).2.parity = .ok p ∧
    (s.set_stop_bits sb).2.stop_bits = .ok sb ∧
    (s.set_flow_control fc).2.flow_control = .ok fc := by
  have hv' : v ≠ 0 := Nat.pos_iff_ne_zero.mp hv
  refine ⟨?_, ?_, ?_, ?_, ?_⟩ <;>
    simp [SerialStream.set_baud_rate, NativePort.set_baud_rate, hv',
      SerialStream.baud_rate, SerialStream.set_parity, NativePort.set_parity,
      SerialStream.parity, SerialStream.set_stop_bits, NativePort.set_stop_bits,
      SerialStream.stop_bits, SerialStream.set_flow_control,
      NativePort.set_flow_control, SerialStream.flow_control]

/-- C7 witness: concrete round-trips on the sample stream. -/
theorem C7_witness :
    (sampleStream.set_baud_rate 115200).1 = .ok () ∧
    (sampleStream.set_baud_rate 115200).2.baud_rate = .ok 115200 ∧
    (sampleStream.set_parity .odd).2.parity = .ok .odd ∧
    (sampleStream.set_stop_bits .two).2.stop_bits = .ok .two ∧
    (sampleStream.set_flow_control .hardware).2.flow_control = .ok .hardware :=
  C7_set_get_roundtrip sampleStream 115200 .odd .two .hardware (by decide)

/-- Splitting a delimiter-free block followed by a delimiter finds exactly
that block. -/
theorem split_at_delimiter_append (f rest : List Nat) (hf : DELIM ∉ f) :
    split_at_delimiter (f ++ DELIM :: rest) = some (f, rest) := by
  induction f with
  | nil => simp [split_at_delimiter]
  | cons b bs ih =>
    have hb : ¬ b = DELIM := fun h => hf (by simp [h])
    have hbs : DELIM ∉ bs := fun h => hf (List.mem_cons_of_mem _ h)
    simp [split_at_delimiter, hb, ih hbs]

/-- Splitting a delimiter-free list finds nothing. -/
theorem split_at_delimiter_none (l : List Nat) (h : DELIM ∉ l) :
    split_at_delimiter l = Option.none := by
  induction l with
  | nil => simp [split_at_delimiter]
  | cons b bs ih =>
    have hb : ¬ b = DELIM := fun hh => h (by simp [hh])
    have hbs : DELIM ∉ bs := fun hh => h (List.mem_cons_of_mem _ hh)
    simp [split_at_delimiter, hb, ih hbs]

/-- Encoding a frame sequence yields at least one byte per frame. -/
theorem encodeAll_length_ge (fs : List (List Nat)) :
    fs.length ≤ (encodeAll fs).length := by
  induction fs with
  | nil => simp [encodeAll]
  | cons f rest ih =>
    simp [encodeAll, Frame.encode]
    omega

/-- Draining a fresh decoder whose buffer is a well-formed frame sequence
reproduces exactly those frames, given enough fuel. -/
theorem drainFrames_encodeAll (maxLen : Nat) (fs : List (List Nat))
    (hfs : ∀ f ∈ fs, DELIM ∉ f) :
    ∀ fuel, fs.length < fuel →
      drainFrames fuel ⟨maxLen, encodeAll fs, false⟩ = fs := by
  induction fs with
  | nil =>
    intro fuel hfuel
    cases fuel with
    | zero => omega
    | succ fuel =>
      simp [drainFrames, Decoder.decode, decodeCore, encodeAll, split_at_delimiter]
  | cons f rest ih =>
    intro fuel hfuel
    cases fuel with
    | zero => omega
    | succ fuel =>
      have hdf : DELIM ∉ f := hfs f (List.mem_cons_self f rest)
      have hrest : ∀ g ∈ rest, DELIM ∉ g := fun g hg => hfs g (List.mem_cons_of_mem f hg)
      have hsplit : split_at_delimiter (encodeAll (f :: rest)) = some (f, encodeAll rest) := by
        have hunf : encodeAll (f :: rest) = f ++ DELIM :: encodeAll rest := by
          simp [encodeAll, Frame.encode]
        rw [hunf]
        exact split_at_delimiter_append f (encodeAll rest) hdf
      simp [drainFrames, Decoder.decode, decodeCore, hsplit]
      exact ih hrest fuel (by simpa using Nat.lt_of_succ_lt_succ hfuel)

/-- C8: (1) for every sequence of frames each below the configured maximum
(and delimiter-free), encoding, decoding and re-encoding reproduces both the
frames and the original byte sequence exactly; (2) bytes exceeding the
maximum before a terminator is found yield `FrameTooLarge`, leaving the
decoder in the canonical discarding state; (3) from that state the recovery
policy holds consistently: the decoder drops bytes up to the next delimiter
and then decodes the following frame normally. -/
theorem C8_codec_roundtrip :
    (∀ (maxLen : Nat) (fs : List (List Nat)),
      (∀ f ∈ fs, f.length ≤ maxLen ∧ DELIM ∉ f) →
      decodeAllFrames maxLen (encodeAll fs) = fs ∧
      encodeAll (decodeAllFrames maxLen (encodeAll fs)) = encodeAll fs) ∧
    (∀ (maxLen : Nat) (bytes : List Nat),
      DELIM ∉ bytes → maxLen < bytes.length →
      Decoder.decode ⟨maxLen, [], false⟩ bytes = (.frameTooLarge, ⟨maxLen, [], true⟩)) ∧
    (∀ (maxLen : Nat) (junk f : List Nat),
      DELIM ∉ junk → DELIM ∉ f →
      Decoder.decode ⟨maxLen, [], true⟩ (junk ++ DELIM :: Frame.encode f) =
        (.frame f, ⟨maxLen, [], false⟩)) := by
  refine ⟨?_, ?_, ?_⟩
  · intro maxLen fs hfs
    have hnd : ∀ f ∈ fs, DELIM ∉ f := fun f hf => (hfs f hf).2
    have hlen : fs.length < (encodeAll fs).length + 1 :=
      Nat.lt_succ_of_le (encodeAll_length_ge fs)
    have h := drainFrames_encodeAll maxLen fs hnd ((encodeAll fs).length + 1) hlen
    have h1 : decodeAllFrames maxLen (encodeAll fs) = fs := h
    exact ⟨h1, by rw [h1]⟩
  · intro maxLen bytes hnd hlen
    have hs := split_at_delimiter_none bytes hnd
    simp [Decoder.decode, decodeCore, hs, hlen]
  · intro maxLen junk f hj hf
    have h1 : split_at_delimiter (junk ++ DELIM :: Frame.encode f) =
        some (junk, Frame.encode f) :=
      split_at_delimiter_append junk (Frame.encode f) hj
    have h2 : split_at_delimiter (Frame.encode f) = some (f, []) := by
      have hunf : Frame.encode f = f ++ DELIM :: [] := rfl
      rw [hunf]
      exact split_at_delimiter_append f [] hf
    simp [Decoder.decode, decodeCore, h1, h2]

/-- C8 witness: concrete frames round-trip, a concrete oversized frame fails
with `FrameTooLarge`, and a concrete post-error input resynchronises at the
delimiter. -/
theorem C8_witness :
    (decodeAllFrames 5 (encodeAll [[1, 2], [3]]) = [[1, 2], [3]] ∧
      encodeAll (decodeAllFrames 5 (encodeAll [[1, 2], [3]])) =
        encodeAll [[1, 2], [3]]) ∧
    Decoder.decode ⟨2, [], false⟩ [1, 2, 3] = (.frameTooLarge, ⟨2, [], true⟩) ∧
    Decoder.decode ⟨5, [], true⟩ ([7] ++ DELIM :: Frame.encode [4]) =
      (.frame [4], ⟨5, [], false⟩) :=
  ⟨C8_codec_roundtrip.1 5 [[1, 2], [3]] (by decide),
    C8_codec_roundtrip.2.1 2 [1, 2, 3] (by decide) (by decide),
    C8_codec_roundtrip.2.2 5 [7] [4] (by decide) (by decide)⟩

end TokioSerial
